import Mathlib

/-!
Shallow embedding of the sistema-despesas-api expense CRUD service
(src/app.py, src/model/despesa.py, src/schemas/despesa.py) and proofs of
the specification claims about it.

Conventions of the embedding:
* SQLAlchemy model fields become a Lean structure (`Despesa`); the
  store-assigned timestamp `data_insercao` is omitted because no business
  logic reads it.
* Python floats carrying monetary values are modelled as rationals: the
  code only compares them to zero and copies them, never does float
  arithmetic.
* Pydantic validators raising ValueError become `Except String`.
* The relational table is a list of `Despesa` rows; SQLAlchemy
  query/commit failures raised by the external store are injected through
  a `StoreFault` parameter, matched where the corresponding try/except
  block would catch them.
-/

/-- Enumeration TipoDespesa from src/model/despesa.py. -/
inductive TipoDespesa where
  | CREDITO_FIXO
  | CREDITO_PARCELADO
  | PIX
  | BOLETO
deriving DecidableEq, Repr

/-- String label of each enum member (the .value attribute in Python). -/
def TipoDespesa.value : TipoDespesa → String
  | .CREDITO_FIXO => "CRÉDITO FIXO"
  | .CREDITO_PARCELADO => "CRÉDITO PARCELADO"
  | .PIX => "PIX"
  | .BOLETO => "BOLETO"

/-- Enum-from-string conversion TipoDespesa(s): Python raises ValueError
when s is not a member value, modelled by returning none. -/
def tipoDespesaOfString (s : String) : Option TipoDespesa :=
  if s = "CRÉDITO FIXO" then some .CREDITO_FIXO
  else if s = "CRÉDITO PARCELADO" then some .CREDITO_PARCELADO
  else if s = "PIX" then some .PIX
  else if s = "BOLETO" then some .BOLETO
  else none

/-- Row of the despesa table (class Despesa in src/model/despesa.py).
data_insercao is omitted: it is set once by the store and never read. -/
structure Despesa where
  id : Int
  tipo : TipoDespesa
  titulo : String
  valor : ℚ
  dia_vencimento : Int
  parcelas : Option Int
  paga : Bool
deriving DecidableEq, Repr

/-- Raw value a form field for parcelas can arrive as in the pre=True
pydantic validator: absent (None), a string, or an integer. -/
inductive RawParcelas where
  | none
  | str (s : String)
  | int (n : Int)
deriving DecidableEq, Repr

/-- Accumulator pass over a decimal digit run for parsePyInt. -/
def pyDigitsAux : List Char → Nat → Option Nat
  | [], acc => some acc
  | c :: rest, acc =>
    if c.isDigit then pyDigitsAux rest (10 * acc + (c.toNat - 48)) else Option.none

/-- Nonempty run of decimal digits, as a number. -/
def pyDigits : List Char → Option Nat
  | [] => Option.none
  | cs => pyDigitsAux cs 0

/-- Python int(s) on a string: an optional sign followed by decimal
digits. (Python additionally strips surrounding whitespace and accepts
underscore digit separators; those extensions are not modelled.) -/
def parsePyInt (s : String) : Option Int :=
  match s.data with
  | [] => Option.none
  | c :: rest =>
    if c = '-' then (pyDigits rest).map (fun n => -(n : Int))
    else if c = '+' then (pyDigits rest).map (fun n => (n : Int))
    else (pyDigits s.data).map (fun n => (n : Int))

namespace DespesaSchema

/-- Validator validate_tipo of DespesaSchema (create path). -/
def validate_tipo (v : String) : Except String String :=
  if v = "CRÉDITO FIXO" ∨ v = "CRÉDITO PARCELADO" ∨ v = "PIX" ∨ v = "BOLETO"
  then .ok v
  else .error "Tipo deve ser um dos seguintes"

/-- Validator validate_parcelas of DespesaSchema (create path), with
pre=True so it receives the raw form value. Mirrors the source exactly:
the string branch returns int(v) without re-checking positivity. -/
def validate_parcelas : RawParcelas → Except String (Option Int)
  | .none => .ok Option.none
  | .str s =>
    if s = "null" ∨ s = "" then .ok Option.none
    else
      match parsePyInt s with
      | Option.some n => .ok (Option.some n)
      | Option.none => .error "Parcelas deve ser um número inteiro"
  | .int n =>
    if n ≤ 0 then .error "Parcelas deve ser um número positivo"
    else .ok (Option.some n)

/-- Validator validate_valor of DespesaSchema. -/
def validate_valor (v : ℚ) : Except String ℚ :=
  if v ≤ 0 then .error "Valor deve ser maior que zero" else .ok v

/-- Validator validate_dia_vencimento of DespesaSchema. -/
def validate_dia_vencimento (v : Int) : Except String Int :=
  if v < 1 ∨ v > 31 then .error "Dia de vencimento deve ser entre 1 e 31"
  else .ok v

end DespesaSchema

/-- Raw creation request fields as they reach the DespesaSchema
validators. titulo and valor are already type-coerced by pydantic
(titulo: str, valor: float); parcelas keeps its raw form; paga defaults
to False when absent. -/
structure RawCreate where
  tipo : String
  titulo : String
  valor : ℚ
  dia_vencimento : Int
  parcelas : RawParcelas
  paga : Option Bool
deriving DecidableEq, Repr

/-- Validated creation command (an accepted DespesaSchema instance). -/
structure DespesaSchema where
  tipo : String
  titulo : String
  valor : ℚ
  dia_vencimento : Int
  parcelas : Option Int
  paga : Bool
deriving DecidableEq, Repr

/-- Whole-schema validation for creation: every field validator of
DespesaSchema applied to its field; titulo has no validator. -/
def validateCreate (r : RawCreate) : Except String DespesaSchema := do
  let tipo ← DespesaSchema.validate_tipo r.tipo
  let parcelas ← DespesaSchema.validate_parcelas r.parcelas
  let valor ← DespesaSchema.validate_valor r.valor
  let dia ← DespesaSchema.validate_dia_vencimento r.dia_vencimento
  .ok ⟨tipo, r.titulo, valor, dia, parcelas, r.paga.getD false⟩

/-- Validated update command (an accepted DespesaAtualizaSchema
instance): id mandatory, every other field optional. -/
structure DespesaAtualizaSchema where
  id : Int
  tipo : Option String
  titulo : Option String
  valor : Option ℚ
  dia_vencimento : Option Int
  parcelas : Option Int
  paga : Option Bool
deriving DecidableEq, Repr

namespace DespesaAtualizaSchema

/-- Validator validate_parcelas of DespesaAtualizaSchema (update path);
its body is identical to the create-path validator. -/
def validate_parcelas : RawParcelas → Except String (Option Int)
  | .none => .ok Option.none
  | .str s =>
    if s = "null" ∨ s = "" then .ok Option.none
    else
      match parsePyInt s with
      | Option.some n => .ok (Option.some n)
      | Option.none => .error "Parcelas deve ser um número inteiro"
  | .int n =>
    if n ≤ 0 then .error "Parcelas deve ser um número positivo"
    else .ok (Option.some n)

end DespesaAtualizaSchema

/-! Update business logic (body of update_despesa in src/app.py, lines
205-224, applied to the row found by id). The source mutates the row
field by field in order; each step below is one of those statements. -/

/-- Statements at lines 205-209: if form.tipo is not None, convert it with
TipoDespesa(form.tipo) (ValueError, modelled as none, when invalid) and
null parcelas when the new tipo string differs from CRÉDITO PARCELADO. -/
def updTipo (d : Despesa) (form : DespesaAtualizaSchema) : Option Despesa :=
  match form.tipo with
  | Option.none => some d
  | Option.some ts =>
    match tipoDespesaOfString ts with
    | Option.none => none
    | Option.some t =>
      let d1 := { d with tipo := t }
      if ts ≠ "CRÉDITO PARCELADO" then some { d1 with parcelas := Option.none }
      else some d1

/-- Statements at lines 210-215: copy titulo, valor, dia_vencimento when
present. -/
def updCampos (d : Despesa) (form : DespesaAtualizaSchema) : Despesa :=
  let d1 := match form.titulo with
    | Option.none => d
    | Option.some s => { d with titulo := s }
  let d2 := match form.valor with
    | Option.none => d1
    | Option.some v => { d1 with valor := v }
  match form.dia_vencimento with
  | Option.none => d2
  | Option.some n => { d2 with dia_vencimento := n }

/-- Statements at lines 216-217: write form.parcelas when present and the
command tipo string is CRÉDITO PARCELADO or the row tipo (as possibly
already overwritten by updTipo) is CRÉDITO PARCELADO. -/
def updParcelas (d : Despesa) (form : DespesaAtualizaSchema) : Despesa :=
  match form.parcelas with
  | Option.none => d
  | Option.some p =>
    if form.tipo = Option.some "CRÉDITO PARCELADO" ∨ d.tipo.value = "CRÉDITO PARCELADO"
    then { d with parcelas := Option.some p }
    else d

/-- Is parcelas present and positive (despesa.parcelas is not None and
despesa.parcelas > 0)? -/
def parcelasPositiva : Option Int → Bool
  | Option.some n => 0 < n
  | Option.none => false

/-- Statements at lines 218-224: when form.paga is present, decrement
parcelas on the false→true transition of a CRÉDITO PARCELADO row with a
positive count, then write paga unconditionally. -/
def updPaga (d : Despesa) (form : DespesaAtualizaSchema) : Despesa :=
  match form.paga with
  | Option.none => d
  | Option.some b =>
    let d1 :=
      if b && !d.paga && (d.tipo.value == "CRÉDITO PARCELADO") && parcelasPositiva d.parcelas
      then { d with parcelas := d.parcelas.map (fun n => n - 1) }
      else d
    { d1 with paga := b }

/-- Full field-update sequence of update_despesa on the row found by id;
none models the ValueError (caught by the generic handler) that
TipoDespesa(form.tipo) raises on an invalid tipo string. -/
def applyUpdate (d : Despesa) (form : DespesaAtualizaSchema) : Option Despesa :=
  match updTipo d form with
  | Option.none => none
  | Option.some d1 => some (updPaga (updParcelas (updCampos d1 form) form) form)

/-! Store model and HTTP routes. -/

/-- The despesa table: one row per stored expense. -/
abbrev Store := List Despesa

/-- session.query(Despesa).filter(Despesa.id == i).first(). -/
def queryFirst (s : Store) (i : Int) : Option Despesa :=
  s.find? (fun d => d.id == i)

/-- Fault injected by the external store while a request body runs: none
(all store calls succeed), integrity (an IntegrityError is raised), or
other (any other exception is raised). -/
inductive StoreFault where
  | none
  | integrity
  | other
deriving DecidableEq, Repr

/-- Response body shapes the routes produce: a despesa projection, a
listing, a bare message object, or a message-plus-id object. -/
inductive Body where
  | record (d : Despesa)
  | listing (l : List Despesa)
  | msg (m : String)
  | msgId (m : String) (i : Int)
deriving DecidableEq, Repr

/-- Is the body a JSON object carrying a message string? -/
def Body.hasMessage : Body → Bool
  | .msg _ => true
  | .msgId _ _ => true
  | _ => false

/-- Route POST /despesa (add_despesa): build the row from the validated
form, insert and commit; IntegrityError maps to 409, any other exception
to 400. newId is the store-assigned primary key. -/
def add_despesa (form : DespesaSchema) (s : Store) (f : StoreFault) (newId : Int) :
    (Nat × Body) × Store :=
  match tipoDespesaOfString form.tipo with
  | Option.none => ((400, Body.msg "Não foi possível salvar nova despesa"), s)
  | Option.some t =>
    let d : Despesa :=
      ⟨newId, t, form.titulo, form.valor, form.dia_vencimento, form.parcelas, form.paga⟩
    match f with
    | .none => ((200, Body.record d), s ++ [d])
    | .integrity => ((409, Body.msg "Erro de integridade ao adicionar despesa"), s)
    | .other => ((400, Body.msg "Não foi possível salvar nova despesa"), s)

/-- Route GET /despesas (get_despesas): list all rows; any exception maps
to 500. -/
def get_despesas (s : Store) (f : StoreFault) : (Nat × Body) × Store :=
  match f with
  | .none =>
    if s.isEmpty then ((200, Body.listing []), s)
    else ((200, Body.listing s), s)
  | _ => ((500, Body.msg "Erro interno do servidor"), s)

/-- Route GET /despesa (get_despesa): fetch one row by id; absent row maps
to 404, any exception to 500. -/
def get_despesa (s : Store) (i : Int) (f : StoreFault) : (Nat × Body) × Store :=
  match f with
  | .none =>
    match queryFirst s i with
    | Option.none => ((404, Body.msg "Despesa não encontrada na base"), s)
    | Option.some d => ((200, Body.record d), s)
  | _ => ((500, Body.msg "Erro interno do servidor"), s)

/-- In-place row replacement performed by mutating the fetched row and
committing. -/
def replaceById (s : Store) (i : Int) (d : Despesa) : Store :=
  s.map (fun e => if e.id == i then d else e)

/-- Route PUT /despesa (update_despesa): fetch by id (404 when absent),
apply the field updates, commit; every exception — the ValueError of an
invalid tipo string or a store failure at commit — maps to 400. -/
def update_despesa (form : DespesaAtualizaSchema) (s : Store) (f : StoreFault) :
    (Nat × Body) × Store :=
  match queryFirst s form.id with
  | Option.none => ((404, Body.msg "Despesa não encontrada na base"), s)
  | Option.some d =>
    match applyUpdate d form with
    | Option.none => ((400, Body.msg "Não foi possível atualizar a despesa"), s)
    | Option.some d1 =>
      match f with
      | .none => ((200, Body.record d1), replaceById s form.id d1)
      | _ => ((400, Body.msg "Não foi possível atualizar a despesa"), s)

/-- Route DELETE /despesa (del_despesa): bulk delete by id, commit, then
branch on the deleted-row count; a zero count maps to 404, any exception
to 500. -/
def del_despesa (s : Store) (i : Int) (f : StoreFault) : (Nat × Body) × Store :=
  match f with
  | .none =>
    let remaining := s.filter (fun d => !(d.id == i))
    let count := s.length - remaining.length
    if count ≠ 0 then ((200, Body.msgId "Despesa removida" i), remaining)
    else ((404, Body.msg "Despesa não encontrada na base"), s)
  | _ => ((500, Body.msg "Erro interno do servidor"), s)

/-! Auxiliary lemmas about the update steps. -/

theorem TipoDespesa.value_eq_parcelado_iff (t : TipoDespesa) :
    t.value = "CRÉDITO PARCELADO" ↔ t = TipoDespesa.CREDITO_PARCELADO := by
  cases t <;> decide

theorem tipoDespesaOfString_parcelado_eval :
    tipoDespesaOfString "CRÉDITO PARCELADO" = some TipoDespesa.CREDITO_PARCELADO := by
  decide

theorem tipoDespesaOfString_parcelado_iff (ts : String) (t : TipoDespesa)
    (h : tipoDespesaOfString ts = some t) :
    (ts = "CRÉDITO PARCELADO" ↔ t = TipoDespesa.CREDITO_PARCELADO) := by
  unfold tipoDespesaOfString at h
  split_ifs at h with h1 h2 h3 h4
  · injection h with h5
    subst h5
    subst h1
    decide
  · injection h with h5
    subst h5
    subst h2
    decide
  · injection h with h5
    subst h5
    subst h3
    decide
  · injection h with h5
    subst h5
    subst h4
    decide

theorem updTipo_none (d : Despesa) (form : DespesaAtualizaSchema)
    (h : form.tipo = Option.none) : updTipo d form = some d := by
  unfold updTipo
  rw [h]

theorem updTipo_some_ne (d : Despesa) (form : DespesaAtualizaSchema) (ts : String)
    (t : TipoDespesa) (hts : form.tipo = some ts) (hconv : tipoDespesaOfString ts = some t)
    (hne : ts ≠ "CRÉDITO PARCELADO") :
    updTipo d form = some { d with tipo := t, parcelas := Option.none } := by
  unfold updTipo
  rw [hts]
  dsimp only
  rw [hconv]
  dsimp only
  rw [if_pos hne]

theorem updTipo_some_parcelado (d : Despesa) (form : DespesaAtualizaSchema)
    (hts : form.tipo = some "CRÉDITO PARCELADO") :
    updTipo d form = some { d with tipo := TipoDespesa.CREDITO_PARCELADO } := by
  unfold updTipo
  rw [hts]
  dsimp only
  rw [tipoDespesaOfString_parcelado_eval]
  dsimp only
  rw [if_neg (by decide)]

theorem updTipo_invalid (d : Despesa) (form : DespesaAtualizaSchema) (ts : String)
    (hts : form.tipo = some ts) (hconv : tipoDespesaOfString ts = Option.none) :
    updTipo d form = Option.none := by
  unfold updTipo
  rw [hts]
  dsimp only
  rw [hconv]

theorem applyUpdate_eq (d d1 : Despesa) (form : DespesaAtualizaSchema)
    (h : updTipo d form = some d1) :
    applyUpdate d form = some (updPaga (updParcelas (updCampos d1 form) form) form) := by
  unfold applyUpdate
  rw [h]

theorem applyUpdate_invalid (d : Despesa) (form : DespesaAtualizaSchema)
    (h : updTipo d form = Option.none) : applyUpdate d form = Option.none := by
  unfold applyUpdate
  rw [h]

theorem updCampos_tipo (d : Despesa) (form : DespesaAtualizaSchema) :
    (updCampos d form).tipo = d.tipo := by
  unfold updCampos
  cases form.titulo <;> cases form.valor <;> cases form.dia_vencimento <;> rfl

theorem updCampos_parcelas (d : Despesa) (form : DespesaAtualizaSchema) :
    (updCampos d form).parcelas = d.parcelas := by
  unfold updCampos
  cases form.titulo <;> cases form.valor <;> cases form.dia_vencimento <;> rfl

theorem updCampos_paga (d : Despesa) (form : DespesaAtualizaSchema) :
    (updCampos d form).paga = d.paga := by
  unfold updCampos
  cases form.titulo <;> cases form.valor <;> cases form.dia_vencimento <;> rfl

theorem updParcelas_tipo (d : Despesa) (form : DespesaAtualizaSchema) :
    (updParcelas d form).tipo = d.tipo := by
  unfold updParcelas
  cases form.parcelas
  · rfl
  · dsimp only
    split <;> rfl

theorem updParcelas_paga (d : Despesa) (form : DespesaAtualizaSchema) :
    (updParcelas d form).paga = d.paga := by
  unfold updParcelas
  cases form.parcelas
  · rfl
  · dsimp only
    split <;> rfl

theorem updParcelas_none (d : Despesa) (form : DespesaAtualizaSchema)
    (h : form.parcelas = Option.none) : updParcelas d form = d := by
  unfold updParcelas
  rw [h]

theorem updParcelas_skip (d : Despesa) (form : DespesaAtualizaSchema)
    (h : d.tipo ≠ TipoDespesa.CREDITO_PARCELADO)
    (hf : form.tipo ≠ some "CRÉDITO PARCELADO") : updParcelas d form = d := by
  unfold updParcelas
  cases form.parcelas
  · rfl
  · dsimp only
    rw [if_neg]
    rintro (h1 | h2)
    · exact hf h1
    · exact h ((TipoDespesa.value_eq_parcelado_iff d.tipo).mp h2)

theorem updParcelas_writes (d : Despesa) (form : DespesaAtualizaSchema) (p : Int)
    (hp : form.parcelas = some p)
    (hcond : form.tipo = some "CRÉDITO PARCELADO" ∨ d.tipo.value = "CRÉDITO PARCELADO") :
    updParcelas d form = { d with parcelas := some p } := by
  unfold updParcelas
  rw [hp]
  dsimp only
  rw [if_pos hcond]

theorem updPaga_tipo (d : Despesa) (form : DespesaAtualizaSchema) :
    (updPaga d form).tipo = d.tipo := by
  unfold updPaga
  cases form.paga
  · rfl
  · dsimp only
    split <;> rfl

theorem updPaga_none (d : Despesa) (form : DespesaAtualizaSchema)
    (h : form.paga = Option.none) : updPaga d form = d := by
  unfold updPaga
  rw [h]

theorem updPaga_some_false (d : Despesa) (form : DespesaAtualizaSchema)
    (h : form.paga = some false) : updPaga d form = { d with paga := false } := by
  unfold updPaga
  rw [h]
  simp

theorem updPaga_not_parcelado (d : Despesa) (form : DespesaAtualizaSchema)
    (h : d.tipo ≠ TipoDespesa.CREDITO_PARCELADO) :
    (updPaga d form).parcelas = d.parcelas := by
  have hb : (d.tipo.value == "CRÉDITO PARCELADO") = false := by
    rw [beq_eq_false_iff_ne]
    intro hv
    exact h ((TipoDespesa.value_eq_parcelado_iff d.tipo).mp hv)
  unfold updPaga
  cases form.paga
  · rfl
  · simp [hb]

theorem updPaga_fires (d : Despesa) (form : DespesaAtualizaSchema) (k : Int)
    (hform : form.paga = some true) (hpaga : d.paga = false)
    (htipo : d.tipo = TipoDespesa.CREDITO_PARCELADO) (hparc : d.parcelas = some k)
    (hk : 0 < k) :
    updPaga d form = { d with parcelas := some (k - 1), paga := true } := by
  have hfire : (true && !d.paga && (d.tipo.value == "CRÉDITO PARCELADO") &&
      parcelasPositiva d.parcelas) = true := by
    rw [hpaga, htipo, hparc]
    simp [parcelasPositiva, hk, TipoDespesa.value]
  unfold updPaga
  rw [hform]
  dsimp only
  rw [if_pos hfire, hparc]
  rfl

theorem updChain_tipo (d : Despesa) (form : DespesaAtualizaSchema) :
    (updPaga (updParcelas (updCampos d form) form) form).tipo = d.tipo := by
  rw [updPaga_tipo, updParcelas_tipo, updCampos_tipo]

theorem updChain_not_parcelado (d : Despesa) (form : DespesaAtualizaSchema)
    (h : d.tipo ≠ TipoDespesa.CREDITO_PARCELADO)
    (hf : form.tipo ≠ some "CRÉDITO PARCELADO") :
    (updPaga (updParcelas (updCampos d form) form) form).parcelas = d.parcelas := by
  have h1 : (updCampos d form).tipo ≠ TipoDespesa.CREDITO_PARCELADO := by
    rw [updCampos_tipo]
    exact h
  rw [updParcelas_skip (updCampos d form) form h1 hf, updPaga_not_parcelado _ _ h1,
    updCampos_parcelas]

/-! Claim theorems. -/

/-- C3: refuted on the code — the validators accept a string denoting a
non-positive integer. Supplying remaining_installments as the string "-5"
passes both the create-path and the update-path validator and yields -5:
the string branch returns int(v) without the positivity check that the
integer branch performs, contradicting the validator message (Parcelas
deve ser um número positivo) and the schema documentation. -/
theorem C3_string_sign_bypass :
    DespesaSchema.validate_parcelas (RawParcelas.str "-5") = Except.ok (some (-5)) ∧
    DespesaAtualizaSchema.validate_parcelas (RawParcelas.str "-5") = Except.ok (some (-5)) := by
  exact ⟨rfl, rfl⟩

/-- C9: get_despesa never modifies the store, and calling it twice in a
row with no intervening writes (same store, same store behaviour) returns
the identical result. -/
theorem C9_get_idempotent (s : Store) (i : Int) (f : StoreFault) :
    (get_despesa s i f).2 = s ∧
    get_despesa (get_despesa s i f).2 i f = get_despesa s i f := by
  have h2 : (get_despesa s i f).2 = s := by
    cases f with
    | none =>
      unfold get_despesa
      cases queryFirst s i <;> rfl
    | integrity => rfl
    | other => rfl
  exact ⟨h2, by rw [h2]⟩

/-- C6: refuted on the code — a creation request with an empty title
passes validation (DespesaSchema declares titulo as a bare required
string with no validator) and the empty-titled record is persisted. -/
theorem C6_counterexample :
    validateCreate ⟨"PIX", "", 1, 10, RawParcelas.none, some false⟩ =
      Except.ok ⟨"PIX", "", 1, 10, Option.none, false⟩ ∧
    (add_despesa ⟨"PIX", "", 1, 10, Option.none, false⟩ [] StoreFault.none 1).2 =
      [⟨1, TipoDespesa.PIX, "", 1, 10, Option.none, false⟩] ∧
    ("" : String).length = 0 := by
  exact ⟨rfl, rfl, rfl⟩

/-- C6 (amended): create validation imposes no constraint on the title at
all — it accepts any string, empty or arbitrarily long, and passes it
through unchanged to the accepted command (the 100-character bound exists
only as store column metadata, which the validation layer never
checks). -/
theorem C6_amended_title_unconstrained (r : RawCreate) (s : String) :
    validateCreate { r with titulo := s } =
      (validateCreate r).map (fun c => { c with titulo := s }) ∧
    (∀ c, validateCreate r = Except.ok c → c.titulo = r.titulo) := by
  constructor
  · cases h1 : DespesaSchema.validate_tipo r.tipo <;>
      cases h2 : DespesaSchema.validate_parcelas r.parcelas <;>
      cases h3 : DespesaSchema.validate_valor r.valor <;>
      cases h4 : DespesaSchema.validate_dia_vencimento r.dia_vencimento <;>
      simp [validateCreate, h1, h2, h3, h4, Except.map, Bind.bind, Except.bind]
  · intro c hc
    unfold validateCreate at hc
    cases h1 : DespesaSchema.validate_tipo r.tipo <;> rw [h1] at hc <;>
      simp [Bind.bind, Except.bind] at hc
    cases h2 : DespesaSchema.validate_parcelas r.parcelas <;> rw [h2] at hc <;>
      simp at hc
    cases h3 : DespesaSchema.validate_valor r.valor <;> rw [h3] at hc <;>
      simp at hc
    cases h4 : DespesaSchema.validate_dia_vencimento r.dia_vencimento <;> rw [h4] at hc <;>
      simp at hc
    rw [← hc]

/-- C1: paid-flag state machine of an INSTALLMENT_CREDIT expense under an
Update command that supplies paid and neither type nor
remaining_installments — the false→true transition with a positive stored
count n decrements it to n-1 and sets paid; the true→false transition
clears paid and leaves the count unchanged (no restoration). -/
theorem C1_paid_transitions :
    (∀ (d : Despesa) (form : DespesaAtualizaSchema) (n : Int),
      form.tipo = Option.none → form.parcelas = Option.none → form.paga = some true →
      d.tipo = TipoDespesa.CREDITO_PARCELADO → d.paga = false → d.parcelas = some n →
      0 < n →
      ∃ d1, applyUpdate d form = some d1 ∧ d1.parcelas = some (n - 1) ∧ d1.paga = true) ∧
    (∀ (d : Despesa) (form : DespesaAtualizaSchema),
      form.tipo = Option.none → form.parcelas = Option.none → form.paga = some false →
      d.paga = true →
      ∃ d1, applyUpdate d form = some d1 ∧ d1.paga = false ∧ d1.parcelas = d.parcelas) := by
  constructor
  · intro d form n ht hp hpg htipo hpaga hparc hn
    have h1 := applyUpdate_eq d d form (updTipo_none d form ht)
    rw [updParcelas_none (updCampos d form) form hp] at h1
    have hc_tipo : (updCampos d form).tipo = TipoDespesa.CREDITO_PARCELADO := by
      rw [updCampos_tipo]
      exact htipo
    have hc_paga : (updCampos d form).paga = false := by
      rw [updCampos_paga]
      exact hpaga
    have hc_parc : (updCampos d form).parcelas = some n := by
      rw [updCampos_parcelas]
      exact hparc
    rw [updPaga_fires (updCampos d form) form n hpg hc_paga hc_tipo hc_parc hn] at h1
    exact ⟨_, h1, rfl, rfl⟩
  · intro d form ht hp hpg hpaga
    have h1 := applyUpdate_eq d d form (updTipo_none d form ht)
    rw [updParcelas_none (updCampos d form) form hp,
      updPaga_some_false (updCampos d form) form hpg] at h1
    exact ⟨_, h1, rfl, updCampos_parcelas d form⟩

/-- Witness for C1 at the spec scenario: a 6-installment unpaid
INSTALLMENT_CREDIT expense marked paid drops to 5 installments; marking
it unpaid again clears paid and keeps the count. -/
theorem C1_paid_transitions_witness :
    (∃ d1, applyUpdate ⟨1, TipoDespesa.CREDITO_PARCELADO, "Loan", 1200, 10, some 6, false⟩
        ⟨1, Option.none, Option.none, Option.none, Option.none, Option.none, some true⟩ =
          some d1 ∧
      d1.parcelas = some (6 - 1) ∧ d1.paga = true) ∧
    (∃ d1, applyUpdate ⟨1, TipoDespesa.CREDITO_PARCELADO, "Loan", 1200, 10, some 5, true⟩
        ⟨1, Option.none, Option.none, Option.none, Option.none, Option.none, some false⟩ =
          some d1 ∧
      d1.paga = false ∧
      d1.parcelas =
        (⟨1, TipoDespesa.CREDITO_PARCELADO, "Loan", 1200, 10, some 5, true⟩ : Despesa).parcelas) := by
  exact ⟨C1_paid_transitions.1 _ _ 6 rfl rfl rfl rfl rfl rfl (by decide),
    C1_paid_transitions.2 _ _ rfl rfl rfl rfl⟩

/-- C4: an Update command whose type is present and differs from
INSTALLMENT_CREDIT leaves the updated expense with null
remaining_installments, even when the same command supplies a
remaining_installments value. -/
theorem C4_type_change_nulls :
    ∀ (d d1 : Despesa) (form : DespesaAtualizaSchema) (ts : String),
    form.tipo = some ts → ts ≠ "CRÉDITO PARCELADO" →
    applyUpdate d form = some d1 → d1.parcelas = Option.none := by
  intro d d1 form ts hts hne happ
  cases hconv : tipoDespesaOfString ts with
  | none =>
    rw [applyUpdate_invalid d form (updTipo_invalid d form ts hts hconv)] at happ
    exact absurd happ (by simp)
  | some t =>
    rw [applyUpdate_eq d _ form (updTipo_some_ne d form ts t hts hconv hne)] at happ
    injection happ with h
    subst h
    have htne : t ≠ TipoDespesa.CREDITO_PARCELADO :=
      fun he => hne ((tipoDespesaOfString_parcelado_iff ts t hconv).mpr he)
    have hfne : form.tipo ≠ some "CRÉDITO PARCELADO" := by
      rw [hts]
      intro hx
      injection hx with hx
      exact hne hx
    have hchain := updChain_not_parcelado { d with tipo := t, parcelas := Option.none } form
      htne hfne
    simpa using hchain

/-- Witness for C4: changing type to PIX on a 6-installment expense while
also supplying remaining_installments=9 nulls the count. -/
theorem C4_type_change_nulls_witness :
    applyUpdate ⟨1, TipoDespesa.CREDITO_PARCELADO, "Loan", 1200, 10, some 6, false⟩
        ⟨1, some "PIX", Option.none, Option.none, Option.none, some 9, Option.none⟩ =
      some ⟨1, TipoDespesa.PIX, "Loan", 1200, 10, Option.none, false⟩ ∧
    (⟨1, TipoDespesa.PIX, "Loan", 1200, 10, Option.none, false⟩ : Despesa).parcelas =
      Option.none := by
  constructor
  · rfl
  · exact C4_type_change_nulls
      ⟨1, TipoDespesa.CREDITO_PARCELADO, "Loan", 1200, 10, some 6, false⟩
      ⟨1, TipoDespesa.PIX, "Loan", 1200, 10, Option.none, false⟩
      ⟨1, some "PIX", Option.none, Option.none, Option.none, some 9, Option.none⟩
      "PIX" rfl (by decide) rfl

/-- C10: when one Update command supplies both remaining_installments = m
(m > 1) and paid = true to an unpaid INSTALLMENT_CREDIT expense (type
absent from the command or INSTALLMENT_CREDIT itself), the new count is
written first and then decremented: the result holds m - 1. -/
theorem C10_count_then_decrement :
    ∀ (d d1 : Despesa) (form : DespesaAtualizaSchema) (m : Int),
    d.tipo = TipoDespesa.CREDITO_PARCELADO → d.paga = false →
    form.parcelas = some m → 1 < m → form.paga = some true →
    (form.tipo = Option.none ∨ form.tipo = some "CRÉDITO PARCELADO") →
    applyUpdate d form = some d1 →
    d1.parcelas = some (m - 1) ∧ d1.paga = true := by
  intro d d1 form m htipo hpaga hp hm hpg hts happ
  have hm0 : (0 : Int) < m := by omega
  rcases hts with hts | hts
  · rw [applyUpdate_eq d d form (updTipo_none d form hts)] at happ
    rw [updParcelas_writes (updCampos d form) form m hp
      (Or.inr (by rw [updCampos_tipo, htipo]; rfl))] at happ
    have hRpaga : ({ updCampos d form with parcelas := some m } : Despesa).paga = false := by
      show (updCampos d form).paga = false
      rw [updCampos_paga]
      exact hpaga
    have hRtipo : ({ updCampos d form with parcelas := some m } : Despesa).tipo =
        TipoDespesa.CREDITO_PARCELADO := by
      show (updCampos d form).tipo = TipoDespesa.CREDITO_PARCELADO
      rw [updCampos_tipo]
      exact htipo
    rw [updPaga_fires { updCampos d form with parcelas := some m } form m hpg hRpaga
      hRtipo rfl hm0] at happ
    injection happ with h
    subst h
    exact ⟨rfl, rfl⟩
  · rw [applyUpdate_eq d _ form (updTipo_some_parcelado d form hts)] at happ
    rw [updParcelas_writes (updCampos { d with tipo := TipoDespesa.CREDITO_PARCELADO } form)
      form m hp (Or.inl hts)] at happ
    have hRpaga :
        ({ updCampos { d with tipo := TipoDespesa.CREDITO_PARCELADO } form with
          parcelas := some m } : Despesa).paga = false := by
      show (updCampos { d with tipo := TipoDespesa.CREDITO_PARCELADO } form).paga = false
      rw [updCampos_paga]
      exact hpaga
    have hRtipo :
        ({ updCampos { d with tipo := TipoDespesa.CREDITO_PARCELADO } form with
          parcelas := some m } : Despesa).tipo = TipoDespesa.CREDITO_PARCELADO := by
      show (updCampos { d with tipo := TipoDespesa.CREDITO_PARCELADO } form).tipo =
        TipoDespesa.CREDITO_PARCELADO
      rw [updCampos_tipo]
    rw [updPaga_fires
      { updCampos { d with tipo := TipoDespesa.CREDITO_PARCELADO } form with
        parcelas := some m } form m hpg hRpaga hRtipo rfl hm0] at happ
    injection happ with h
    subst h
    exact ⟨rfl, rfl⟩

/-- Witness for C10: supplying remaining_installments=9 and paid=true in
one command to an unpaid 6-installment expense yields 9-1, not 6-1. -/
theorem C10_count_then_decrement_witness :
    applyUpdate ⟨1, TipoDespesa.CREDITO_PARCELADO, "Loan", 1200, 10, some 6, false⟩
        ⟨1, Option.none, Option.none, Option.none, Option.none, some 9, some true⟩ =
      some ⟨1, TipoDespesa.CREDITO_PARCELADO, "Loan", 1200, 10, some 8, true⟩ ∧
    (⟨1, TipoDespesa.CREDITO_PARCELADO, "Loan", 1200, 10, some 8, true⟩ : Despesa).parcelas =
      some (9 - 1) ∧
    (⟨1, TipoDespesa.CREDITO_PARCELADO, "Loan", 1200, 10, some 8, true⟩ : Despesa).paga =
      true := by
  refine ⟨rfl, ?_⟩
  exact C10_count_then_decrement
    ⟨1, TipoDespesa.CREDITO_PARCELADO, "Loan", 1200, 10, some 6, false⟩
    ⟨1, TipoDespesa.CREDITO_PARCELADO, "Loan", 1200, 10, some 8, true⟩
    ⟨1, Option.none, Option.none, Option.none, Option.none, some 9, some true⟩
    9 rfl rfl rfl (by decide) rfl (Or.inl rfl) rfl

/-- updCampos reads only titulo, valor and dia_vencimento of the
command. -/
theorem updCampos_congr (d : Despesa) (f g : DespesaAtualizaSchema)
    (ht : g.titulo = f.titulo) (hv : g.valor = f.valor)
    (hdia : g.dia_vencimento = f.dia_vencimento) :
    updCampos d g = updCampos d f := by
  unfold updCampos
  rw [ht, hv, hdia]

/-- updPaga reads only paga of the command. -/
theorem updPaga_congr (d : Despesa) (f g : DespesaAtualizaSchema)
    (hp : g.paga = f.paga) : updPaga d g = updPaga d f := by
  unfold updPaga
  rw [hp]

/-- When neither the command type nor (for a type-less command) the stored
type is CRÉDITO PARCELADO, the whole update ignores the supplied parcelas:
it equals the update by any command that is identical except for an absent
parcelas. -/
theorem applyUpdate_ignores_parcelas (d : Despesa) (f g : DespesaAtualizaSchema)
    (hid : g.tipo = f.tipo) (ht : g.titulo = f.titulo) (hv : g.valor = f.valor)
    (hdia : g.dia_vencimento = f.dia_vencimento) (hpg : g.paga = f.paga)
    (hgp : g.parcelas = Option.none)
    (hcond : ¬(f.tipo = some "CRÉDITO PARCELADO" ∨
      (f.tipo = Option.none ∧ d.tipo = TipoDespesa.CREDITO_PARCELADO))) :
    applyUpdate d f = applyUpdate d g := by
  push_neg at hcond
  obtain ⟨h1, h2⟩ := hcond
  cases hts : f.tipo with
  | none =>
    have hd : d.tipo ≠ TipoDespesa.CREDITO_PARCELADO := h2 hts
    have hgt : g.tipo = Option.none := by rw [hid, hts]
    rw [applyUpdate_eq d d f (updTipo_none d f hts),
      applyUpdate_eq d d g (updTipo_none d g hgt)]
    rw [updParcelas_skip (updCampos d f) f (by rw [updCampos_tipo]; exact hd) h1,
      updParcelas_none (updCampos d g) g hgp,
      updCampos_congr d f g ht hv hdia,
      updPaga_congr (updCampos d f) f g hpg]
  | some ts =>
    have hne : ts ≠ "CRÉDITO PARCELADO" := by
      intro he
      apply h1
      rw [hts, he]
    have hgt : g.tipo = some ts := by rw [hid, hts]
    cases hconv : tipoDespesaOfString ts with
    | none =>
      rw [applyUpdate_invalid d f (updTipo_invalid d f ts hts hconv),
        applyUpdate_invalid d g (updTipo_invalid d g ts hgt hconv)]
    | some t =>
      have htne : t ≠ TipoDespesa.CREDITO_PARCELADO :=
        fun he => hne ((tipoDespesaOfString_parcelado_iff ts t hconv).mpr he)
      rw [applyUpdate_eq d _ f (updTipo_some_ne d f ts t hts hconv hne),
        applyUpdate_eq d _ g (updTipo_some_ne d g ts t hgt hconv hne)]
      rw [updParcelas_skip (updCampos { d with tipo := t, parcelas := Option.none } f) f
        (by rw [updCampos_tipo]; exact htne) h1,
        updParcelas_none (updCampos { d with tipo := t, parcelas := Option.none } g) g hgp,
        updCampos_congr { d with tipo := t, parcelas := Option.none } f g ht hv hdia,
        updPaga_congr (updCampos { d with tipo := t, parcelas := Option.none } f) f g hpg]

/-- C5: a supplied remaining_installments value is written exactly when
the command type is INSTALLMENT_CREDIT, or the command omits type and the
stored type is INSTALLMENT_CREDIT (stated for commands that do not also
supply paid, whose decrement is the separate C10 interaction); otherwise
the supplied value is ignored — the update behaves as if
remaining_installments were absent from the command. -/
theorem C5_parcelas_application :
    (∀ (d d1 : Despesa) (form : DespesaAtualizaSchema) (p : Int),
      form.parcelas = some p → form.paga = Option.none →
      (form.tipo = some "CRÉDITO PARCELADO" ∨
        (form.tipo = Option.none ∧ d.tipo = TipoDespesa.CREDITO_PARCELADO)) →
      applyUpdate d form = some d1 → d1.parcelas = some p) ∧
    (∀ (d : Despesa) (form : DespesaAtualizaSchema),
      ¬(form.tipo = some "CRÉDITO PARCELADO" ∨
        (form.tipo = Option.none ∧ d.tipo = TipoDespesa.CREDITO_PARCELADO)) →
      applyUpdate d form = applyUpdate d { form with parcelas := Option.none }) := by
  constructor
  · intro d d1 form p hp hpg hcond happ
    rcases hcond with hts | ⟨hts, htipo⟩
    · rw [applyUpdate_eq d _ form (updTipo_some_parcelado d form hts)] at happ
      rw [updParcelas_writes (updCampos { d with tipo := TipoDespesa.CREDITO_PARCELADO } form)
        form p hp (Or.inl hts)] at happ
      rw [updPaga_none _ form hpg] at happ
      injection happ with h
      subst h
      rfl
    · rw [applyUpdate_eq d d form (updTipo_none d form hts)] at happ
      rw [updParcelas_writes (updCampos d form) form p hp
        (Or.inr (by rw [updCampos_tipo, htipo]; rfl))] at happ
      rw [updPaga_none _ form hpg] at happ
      injection happ with h
      subst h
      rfl
  · intro d form hcond
    exact applyUpdate_ignores_parcelas d form { form with parcelas := Option.none }
      rfl rfl rfl rfl rfl rfl hcond

/-- Witness for C5: a supplied count 9 is written when the stored type is
INSTALLMENT_CREDIT and the command omits type; and on a PIX expense the
same command acts exactly like one without remaining_installments. -/
theorem C5_parcelas_application_witness :
    (⟨1, TipoDespesa.CREDITO_PARCELADO, "Loan", 1200, 10, some 9, false⟩ : Despesa).parcelas =
      some 9 ∧
    applyUpdate ⟨2, TipoDespesa.PIX, "Net", 80, 5, Option.none, false⟩
        ⟨2, Option.none, Option.none, Option.none, Option.none, some 9, Option.none⟩ =
      applyUpdate ⟨2, TipoDespesa.PIX, "Net", 80, 5, Option.none, false⟩
        ⟨2, Option.none, Option.none, Option.none, Option.none, Option.none, Option.none⟩ := by
  constructor
  · exact C5_parcelas_application.1
      ⟨1, TipoDespesa.CREDITO_PARCELADO, "Loan", 1200, 10, some 6, false⟩
      ⟨1, TipoDespesa.CREDITO_PARCELADO, "Loan", 1200, 10, some 9, false⟩
      ⟨1, Option.none, Option.none, Option.none, Option.none, some 9, Option.none⟩
      9 rfl rfl (Or.inr ⟨rfl, rfl⟩) rfl
  · exact C5_parcelas_application.2
      ⟨2, TipoDespesa.PIX, "Net", 80, 5, Option.none, false⟩
      ⟨2, Option.none, Option.none, Option.none, Option.none, some 9, Option.none⟩
      (by rintro (h | ⟨h1, h2⟩) <;> simp_all)

/-- Invariant of the spec: remaining_installments is null on every
expense whose type is not INSTALLMENT_CREDIT. -/
def parcelasInvariant (d : Despesa) : Prop :=
  d.tipo ≠ TipoDespesa.CREDITO_PARCELADO → d.parcelas = Option.none

/-- C2: refuted on the code — the create route passes form.parcelas
through unchanged, so a validated creation command with type PIX and
remaining_installments 5 persists a PIX expense whose
remaining_installments is 5, a reachable store state violating the
invariant. -/
theorem C2_counterexample :
    validateCreate ⟨"PIX", "Internet", 1, 10, RawParcelas.int 5, some false⟩ =
      Except.ok ⟨"PIX", "Internet", 1, 10, some 5, false⟩ ∧
    (add_despesa ⟨"PIX", "Internet", 1, 10, some 5, false⟩ [] StoreFault.none 1).2 =
      [⟨1, TipoDespesa.PIX, "Internet", 1, 10, some 5, false⟩] ∧
    ¬ parcelasInvariant ⟨1, TipoDespesa.PIX, "Internet", 1, 10, some 5, false⟩ := by
  refine ⟨rfl, rfl, ?_⟩
  intro hinv
  exact absurd (hinv (by decide)) (by decide)

/-- C2 (amended): the invariant — type ≠ INSTALLMENT_CREDIT implies null
remaining_installments — is preserved by every successful update, and
creation establishes it whenever the creation command omits
remaining_installments; but creation does not force it when the command
supplies a count together with a non-INSTALLMENT_CREDIT type. -/
theorem C2_amended_invariant :
    (∀ (d d1 : Despesa) (form : DespesaAtualizaSchema),
      applyUpdate d form = some d1 → parcelasInvariant d → parcelasInvariant d1) ∧
    (∀ (form : DespesaSchema) (s : Store) (f : StoreFault) (newId : Int) (d : Despesa),
      form.parcelas = Option.none → d ∈ (add_despesa form s f newId).2 →
      d ∈ s ∨ parcelasInvariant d) := by
  constructor
  · intro d d1 form happ hinv
    cases hts : form.tipo with
    | none =>
      rw [applyUpdate_eq d d form (updTipo_none d form hts)] at happ
      injection happ with h
      subst h
      intro hne
      rw [updChain_tipo] at hne
      rw [updChain_not_parcelado d form hne (by rw [hts]; simp)]
      exact hinv hne
    | some ts =>
      cases hconv : tipoDespesaOfString ts with
      | none =>
        rw [applyUpdate_invalid d form (updTipo_invalid d form ts hts hconv)] at happ
        exact absurd happ (by simp)
      | some t =>
        by_cases hcp : ts = "CRÉDITO PARCELADO"
        · subst hcp
          rw [applyUpdate_eq d _ form (updTipo_some_parcelado d form hts)] at happ
          injection happ with h
          subst h
          intro hne
          rw [updChain_tipo] at hne
          exact absurd rfl hne
        · rw [applyUpdate_eq d _ form (updTipo_some_ne d form ts t hts hconv hcp)] at happ
          injection happ with h
          subst h
          intro hne
          have htne : t ≠ TipoDespesa.CREDITO_PARCELADO :=
            fun he => hcp ((tipoDespesaOfString_parcelado_iff ts t hconv).mpr he)
          have hfne : form.tipo ≠ some "CRÉDITO PARCELADO" := by
            rw [hts]
            intro hx
            injection hx with hx
            exact hcp hx
          rw [updChain_not_parcelado { d with tipo := t, parcelas := Option.none } form
            htne hfne]
  · intro form s f newId d hp hmem
    unfold add_despesa at hmem
    cases hconv : tipoDespesaOfString form.tipo with
    | none =>
      rw [hconv] at hmem
      exact Or.inl hmem
    | some t =>
      rw [hconv] at hmem
      cases f with
      | none =>
        simp only at hmem
        rw [List.mem_append] at hmem
        rcases hmem with h | h
        · exact Or.inl h
        · rw [List.mem_singleton] at h
          subst h
          right
          intro hne
          exact hp
      | integrity => exact Or.inl hmem
      | other => exact Or.inl hmem

/-- Witness for C2 (amended): a PIX expense satisfying the invariant
still satisfies it after an update that supplies a count; and creating
with the count absent yields a store whose new row satisfies it. -/
theorem C2_amended_invariant_witness :
    parcelasInvariant ⟨2, TipoDespesa.PIX, "Net", 80, 5, Option.none, false⟩ ∧
    ((⟨1, TipoDespesa.PIX, "Net", 80, 5, Option.none, false⟩ : Despesa) ∈ ([] : Store) ∨
      parcelasInvariant ⟨1, TipoDespesa.PIX, "Net", 80, 5, Option.none, false⟩) := by
  constructor
  · exact C2_amended_invariant.1
      ⟨2, TipoDespesa.PIX, "Net", 80, 5, Option.none, false⟩
      ⟨2, TipoDespesa.PIX, "Net", 80, 5, Option.none, false⟩
      ⟨2, Option.none, Option.none, Option.none, Option.none, some 9, Option.none⟩
      rfl (fun _ => rfl)
  · exact C2_amended_invariant.2 ⟨"PIX", "Net", 80, 5, Option.none, false⟩ [] StoreFault.none
      1 ⟨1, TipoDespesa.PIX, "Net", 80, 5, Option.none, false⟩ rfl (by decide)

/-- The deleted-row count of the bulk delete is nonzero exactly when some
stored row has the requested id. -/
theorem del_count_pos_iff (s : Store) (i : Int) :
    s.length - (s.filter (fun d => !(d.id == i))).length ≠ 0 ↔ ∃ d ∈ s, d.id = i := by
  induction s with
  | nil => simp
  | cons a t ih =>
    by_cases h : a.id = i
    · have hb : (a.id == i) = true := beq_iff_eq.mpr h
      have hl := List.length_filter_le (fun d => !(d.id == i)) t
      simp [List.filter_cons, hb, h]
      omega
    · have hb : (a.id == i) = false := by
        rw [beq_eq_false_iff_ne]
        exact h
      simp only [List.filter_cons, hb, Bool.not_false, if_pos, List.length_cons,
        Nat.succ_sub_succ]
      rw [ih]
      simp [h]

/-- No row of the post-delete store has the deleted id. -/
theorem del_filter_no_id (s : Store) (i : Int) :
    ∀ d ∈ s.filter (fun d => !(d.id == i)), d.id ≠ i := by
  intro d hd
  have hp := List.of_mem_filter hd
  simpa [beq_eq_false_iff_ne] using hp

/-- C7: del_despesa removes exactly the rows with the requested id and
confirms with that id when one exists; when none exists it answers 404
with the store unchanged — hence a second delete of the same id right
after a successful one answers 404 and changes nothing. -/
theorem C7_delete_semantics (s : Store) (i : Int) :
    ((∃ d ∈ s, d.id = i) →
      (del_despesa s i StoreFault.none).1 = (200, Body.msgId "Despesa removida" i) ∧
      (del_despesa s i StoreFault.none).2 = s.filter (fun d => !(d.id == i)) ∧
      (∀ d ∈ (del_despesa s i StoreFault.none).2, d.id ≠ i) ∧
      del_despesa (del_despesa s i StoreFault.none).2 i StoreFault.none =
        ((404, Body.msg "Despesa não encontrada na base"),
          (del_despesa s i StoreFault.none).2)) ∧
    ((¬ ∃ d ∈ s, d.id = i) →
      del_despesa s i StoreFault.none =
        ((404, Body.msg "Despesa não encontrada na base"), s)) := by
  constructor
  · intro hex
    have hcount : s.length - (s.filter (fun d => !(d.id == i))).length ≠ 0 :=
      (del_count_pos_iff s i).mpr hex
    have hdel : del_despesa s i StoreFault.none =
        ((200, Body.msgId "Despesa removida" i), s.filter (fun d => !(d.id == i))) := by
      unfold del_despesa
      dsimp only
      rw [if_pos hcount]
    have hnone : ¬ ∃ d ∈ s.filter (fun d => !(d.id == i)), d.id = i := by
      rintro ⟨d, hd, hdi⟩
      exact del_filter_no_id s i d hd hdi
    have hzero :
        ¬ ((s.filter (fun d => !(d.id == i))).length -
          ((s.filter (fun d => !(d.id == i))).filter (fun d => !(d.id == i))).length ≠ 0) :=
      fun hc => hnone ((del_count_pos_iff (s.filter (fun d => !(d.id == i))) i).mp hc)
    have hdel2 : del_despesa (s.filter (fun d => !(d.id == i))) i StoreFault.none =
        ((404, Body.msg "Despesa não encontrada na base"),
          s.filter (fun d => !(d.id == i))) := by
      unfold del_despesa
      dsimp only
      rw [if_neg hzero]
    refine ⟨by rw [hdel], by rw [hdel], ?_, ?_⟩
    · rw [hdel]
      exact del_filter_no_id s i
    · rw [hdel]
      exact hdel2
  · intro hnex
    have hcount : ¬ (s.length - (s.filter (fun d => !(d.id == i))).length ≠ 0) :=
      fun hc => hnex ((del_count_pos_iff s i).mp hc)
    unfold del_despesa
    dsimp only
    rw [if_neg hcount]

/-- Witness for C7: deleting id 1 from a one-row store confirms with id 1,
leaves no row with id 1, and a second delete answers 404; deleting from
the empty store answers 404 with the store unchanged. -/
theorem C7_delete_semantics_witness :
    (del_despesa [⟨1, TipoDespesa.PIX, "Net", 80, 5, Option.none, false⟩] 1
        StoreFault.none).1 = (200, Body.msgId "Despesa removida" 1) ∧
    del_despesa (del_despesa [⟨1, TipoDespesa.PIX, "Net", 80, 5, Option.none, false⟩] 1
        StoreFault.none).2 1 StoreFault.none =
      ((404, Body.msg "Despesa não encontrada na base"),
        (del_despesa [⟨1, TipoDespesa.PIX, "Net", 80, 5, Option.none, false⟩] 1
          StoreFault.none).2) ∧
    del_despesa [] 1 StoreFault.none =
      ((404, Body.msg "Despesa não encontrada na base"), []) := by
  have h1 := (C7_delete_semantics [⟨1, TipoDespesa.PIX, "Net", 80, 5, Option.none, false⟩] 1).1
    ⟨⟨1, TipoDespesa.PIX, "Net", 80, 5, Option.none, false⟩, by decide, rfl⟩
  exact ⟨h1.1, h1.2.2.2, (C7_delete_semantics [] 1).2 (by simp)⟩

/-- C8: an unexpected non-integrity store failure yields status 500 with
a message body for list, get and delete, and status 400 with a message
body for create (once the type string converts) and update (once the row
is found and the field updates raise nothing themselves); no failure
escapes the handlers. -/
theorem C8_persistence_error_mapping :
    (∀ s : Store, (get_despesas s StoreFault.other).1.1 = 500 ∧
      ((get_despesas s StoreFault.other).1.2).hasMessage = true) ∧
    (∀ (s : Store) (i : Int), (get_despesa s i StoreFault.other).1.1 = 500 ∧
      ((get_despesa s i StoreFault.other).1.2).hasMessage = true) ∧
    (∀ (s : Store) (i : Int), (del_despesa s i StoreFault.other).1.1 = 500 ∧
      ((del_despesa s i StoreFault.other).1.2).hasMessage = true) ∧
    (∀ (form : DespesaSchema) (s : Store) (newId : Int) (t : TipoDespesa),
      tipoDespesaOfString form.tipo = some t →
      (add_despesa form s StoreFault.other newId).1.1 = 400 ∧
      ((add_despesa form s StoreFault.other newId).1.2).hasMessage = true) ∧
    (∀ (form : DespesaAtualizaSchema) (s : Store) (d d1 : Despesa),
      queryFirst s form.id = some d → applyUpdate d form = some d1 →
      (update_despesa form s StoreFault.other).1.1 = 400 ∧
      ((update_despesa form s StoreFault.other).1.2).hasMessage = true) := by
  refine ⟨fun s => ⟨rfl, rfl⟩, fun s i => ⟨rfl, rfl⟩, fun s i => ⟨rfl, rfl⟩, ?_, ?_⟩
  · intro form s newId t h
    unfold add_despesa
    rw [h]
    exact ⟨rfl, rfl⟩
  · intro form s d d1 hq ha
    unfold update_despesa
    rw [hq]
    dsimp only
    rw [ha]
    exact ⟨rfl, rfl⟩

/-- Witness for C8 at concrete requests: a failing create of a PIX
expense answers 400 and a failing update of an existing row answers 400,
both with message bodies. -/
theorem C8_persistence_error_mapping_witness :
    ((add_despesa ⟨"PIX", "Net", 80, 5, Option.none, false⟩ [] StoreFault.other 1).1.1 = 400 ∧
      ((add_despesa ⟨"PIX", "Net", 80, 5, Option.none, false⟩ []
        StoreFault.other 1).1.2).hasMessage = true) ∧
    ((update_despesa ⟨1, Option.none, Option.none, Option.none, Option.none, Option.none,
        Option.none⟩ [⟨1, TipoDespesa.PIX, "Net", 80, 5, Option.none, false⟩]
        StoreFault.other).1.1 = 400 ∧
      ((update_despesa ⟨1, Option.none, Option.none, Option.none, Option.none, Option.none,
        Option.none⟩ [⟨1, TipoDespesa.PIX, "Net", 80, 5, Option.none, false⟩]
        StoreFault.other).1.2).hasMessage = true) := by
  constructor
  · exact C8_persistence_error_mapping.2.2.2.1 ⟨"PIX", "Net", 80, 5, Option.none, false⟩ []
      1 TipoDespesa.PIX rfl
  · exact C8_persistence_error_mapping.2.2.2.2
      ⟨1, Option.none, Option.none, Option.none, Option.none, Option.none, Option.none⟩
      [⟨1, TipoDespesa.PIX, "Net", 80, 5, Option.none, false⟩]
      ⟨1, TipoDespesa.PIX, "Net", 80, 5, Option.none, false⟩
      ⟨1, TipoDespesa.PIX, "Net", 80, 5, Option.none, false⟩
      (by decide) rfl

/-- Witness for C6 (amended): replacing the title of a valid creation
request changes nothing but the accepted titulo, and an accepted command
carries the supplied title through unchanged. -/
theorem C6_amended_title_unconstrained_witness :
    validateCreate ⟨"PIX", "x", 1, 10, RawParcelas.none, some false⟩ =
      (validateCreate ⟨"PIX", "Net", 1, 10, RawParcelas.none, some false⟩).map
        (fun c => { c with titulo := "x" }) ∧
    (⟨"PIX", "Net", 1, 10, Option.none, false⟩ : DespesaSchema).titulo = "Net" := by
  constructor
  · exact (C6_amended_title_unconstrained
      ⟨"PIX", "Net", 1, 10, RawParcelas.none, some false⟩ "x").1
  · exact (C6_amended_title_unconstrained
      ⟨"PIX", "Net", 1, 10, RawParcelas.none, some false⟩ "x").2
      ⟨"PIX", "Net", 1, 10, Option.none, false⟩ rfl
